import Mathlib

/-!
# Verification of the prospect aggregation and scoring pipeline

Shallow embedding of `prospect_finder.py` (class `ProspectFinder`).

A pandas `DataFrame` of prospect records is modelled as a list of rows with
optional fields, together with one boolean per relevant column recording
whether that column is present in the frame (pandas distinguishes an absent
column from a column of missing values; the code branches on
`'col' in df.columns`).  Missing values (NaN) are modelled by `none`.
`self.output_directory`, and the wall-clock timestamps the code reads, are
passed as explicit parameters.
-/

namespace ProspectFinder

/-- Substring test on character lists: `true` iff `needle` occurs
contiguously inside `hay`.  This is the semantics of
`pandas.Series.str.contains(pat)` for a pattern with no regex
metacharacters (all patterns used by the code are literal). -/
def listContains (needle : List Char) : List Char → Bool
  | [] => needle.isEmpty
  | c :: t => List.isPrefixOf needle (c :: t) || listContains needle t

/-- `strContains hay needle` : does `hay` contain `needle` as a substring? -/
def strContains (hay needle : String) : Bool :=
  listContains needle.data hay.data

/-- `str.lower()` on one cell (ASCII case folding, which covers every
character the keyword rules can match). -/
def lowerStr (s : String) : String :=
  ⟨s.data.map Char.toLower⟩

/-- One prospect record (a row of the DataFrame).  Every field the core
pipeline reads or writes is optional: `none` is pandas NaN / absent. -/
structure Row where
  name : Option String := none
  phone : Option String := none
  address : Option String := none
  website : Option String := none
  source : Option String := none
  prospect_type : Option String := none
  score : Option Int := none
deriving Repr, DecidableEq

/-- A pandas DataFrame: rows plus presence flags for the columns the code
tests with `'col' in df.columns`.  `pd.DataFrame()` (the initial store)
has no rows and no columns: all flags default to `false`. -/
structure DataFrame where
  hasName : Bool := false
  hasPhone : Bool := false
  hasAddress : Bool := false
  hasWebsite : Bool := false
  hasSource : Bool := false
  hasType : Bool := false
  hasScore : Bool := false
  rows : List Row := []
deriving Repr, DecidableEq

/-- The store a fresh `ProspectFinder` starts with: `pd.DataFrame()`. -/
def emptyStore : DataFrame := {}

/-- `pd.concat([d1, d2], ignore_index=True)`: rows appended in order,
columns the union of both frames' columns. -/
def concat (d1 d2 : DataFrame) : DataFrame where
  hasName := d1.hasName || d2.hasName
  hasPhone := d1.hasPhone || d2.hasPhone
  hasAddress := d1.hasAddress || d2.hasAddress
  hasWebsite := d1.hasWebsite || d2.hasWebsite
  hasSource := d1.hasSource || d2.hasSource
  hasType := d1.hasType || d2.hasType
  hasScore := d1.hasScore || d2.hasScore
  rows := d1.rows ++ d2.rows

/-- `add_yellowpages_data(df)`: early return (a logged no-op) on an empty
batch, otherwise `self.prospects = pd.concat([self.prospects, df])`.
The store is the first argument, the incoming batch the second. -/
def add_yellowpages_data (store df : DataFrame) : DataFrame :=
  if df.rows.isEmpty then store else concat store df

/-- `add_dmv_data(df)`: identical to `add_yellowpages_data` except for the
log message (not modelled). -/
def add_dmv_data (store df : DataFrame) : DataFrame :=
  if df.rows.isEmpty then store else concat store df

/-- The duplicate key used by `drop_duplicates(subset=['name','phone'])`.
pandas treats two NaNs in the subset as equal, matching `Option` equality. -/
def dedupKey (r : Row) : Option String × Option String :=
  (r.name, r.phone)

/-- `drop_duplicates(subset=['name','phone'], keep='first')`: keep the
first row of each `(name, phone)` class, preserving order.  `seen` is the
set of keys already kept. -/
def dropDuplicatesFirst : List Row → List (Option String × Option String) → List Row
  | [], _ => []
  | r :: t, seen =>
    if dedupKey r ∈ seen then dropDuplicatesFirst t seen
    else r :: dropDuplicatesFirst t (dedupKey r :: seen)

/-- The dedup subset columns absent from the frame
(`Index(subset).difference(df.columns)` for subset `['name', 'phone']`). -/
def missingDedupColumns (store : DataFrame) : List String :=
  (if store.hasName then [] else ["name"])
    ++ (if store.hasPhone then [] else ["phone"])

/-- `df.drop_duplicates(subset=['name','phone'], keep='first')`: an empty
frame is returned as a copy; otherwise a subset column absent from the
frame is a `KeyError` (modelled as an `Except.error` carrying the missing
columns); otherwise keep the first row of each `(name, phone)` class,
preserving order. -/
def drop_duplicates_name_phone (store : DataFrame) : Except (List String) DataFrame :=
  if store.rows.isEmpty then Except.ok store
  else if missingDedupColumns store ≠ [] then Except.error (missingDedupColumns store)
  else Except.ok { store with rows := dropDuplicatesFirst store.rows [] }

/-- `filter_prospects(criteria)`: criteria is an optional dict, modelled by
its key list.  `None` returns a copy of the store; a dict containing the
key `'min_records'` triggers the dedup, whose `KeyError` (non-empty store
with the `name` or `phone` column absent) propagates to the caller; any
other dict returns the copy. -/
def filter_prospects (store : DataFrame) (criteria : Option (List String)) :
    Except (List String) DataFrame :=
  match criteria with
  | none => Except.ok store
  | some keys =>
    if "min_records" ∈ keys then drop_duplicates_name_phone store
    else Except.ok store

/-- `df['source'].str.contains('DMV', na=False)` for one cell: a missing
source is `False` (na=False), a present one is a case-sensitive substring
test for the literal `"DMV"`. -/
def sourceHasDMV : Option String → Bool
  | none => false
  | some s => strContains s "DMV"

/-- The per-row effect of `score_prospects`: `df['score'] = 0`, then the
four guarded `+=` mask assignments, each gated on the column being present
in the frame and the cell being non-missing. -/
def scoreRow (df : DataFrame) (r : Row) : Row :=
  let s : Int := 0
  let s := if df.hasPhone && r.phone.isSome then s + 10 else s
  let s := if df.hasWebsite && r.website.isSome then s + 5 else s
  let s := if df.hasAddress && r.address.isSome then s + 5 else s
  let s := if df.hasSource && sourceHasDMV r.source then s + 20 else s
  { r with score := some s }

/-- Insert a row into a list already sorted by score descending, after all
rows of greater-or-equal score. -/
def insertDesc (r : Row) : List Row → List Row
  | [] => [r]
  | x :: t =>
    if x.score.getD 0 ≤ r.score.getD 0 then r :: x :: t
    else x :: insertDesc r t

/-- `df.sort_values('score', ascending=False)`: some reordering of the rows
that is non-increasing in `score`.  pandas' default `kind='quicksort'`
leaves the order of equal keys unspecified; the embedding fixes one
concrete refinement (an insertion sort). -/
def sortByScoreDesc (l : List Row) : List Row :=
  l.foldr insertDesc []

/-- `score_prospects(df)`: set each row's score, then sort by score
descending. -/
def score_prospects (df : DataFrame) : DataFrame :=
  { df with
    hasScore := true,
    rows := sortByScoreDesc (df.rows.map (scoreRow df)) }

/-- `dealer_keywords` from `categorize_prospects`. -/
def dealer_keywords : List String := ["auto", "car", "dealer", "motors", "automotive"]

/-- `buyer_keywords` from `categorize_prospects`. -/
def buyer_keywords : List String := ["buyer", "cash for cars", "we buy", "wholesale"]

/-- `shop_keywords` from `categorize_prospects`. -/
def shop_keywords : List String := ["body shop", "collision", "repair"]

/-- `series.str.contains('|'.join(kws))` for one cell: the joined pattern is
a regex alternation of literal keywords, i.e. "some keyword is a
substring". -/
def matchesAny (kws : List String) (s : String) : Bool :=
  kws.any (fun k => strContains s k)

/-- The `prospect_type` `categorize_prospects` assigns to a row, given
whether the frame has a `name` column.  Mirrors the code's sequence:
default `'Unknown'`, then the dealer, buyer and shop mask assignments in
order, each overwriting the previous value where its mask holds; the name
is lowercased with NaN filled by `''` before matching. -/
def labelFor (hasNameCol : Bool) (nameVal : Option String) : String :=
  if hasNameCol then
    let nl := lowerStr (nameVal.getD "")
    let pt := "Unknown"
    let pt := if matchesAny dealer_keywords nl then "Auto Dealer" else pt
    let pt := if matchesAny buyer_keywords nl then "Vehicle Buyer" else pt
    let pt := if matchesAny shop_keywords nl then "Body Shop" else pt
    pt
  else "Unknown"

/-- `categorize_prospects(df)`: every row gets a `prospect_type` (the
column is created unconditionally), computed from its `name`. -/
def categorize_prospects (df : DataFrame) : DataFrame :=
  { df with
    hasType := true,
    rows := df.rows.map (fun r => { r with prospect_type := some (labelFor df.hasName r.name) }) }

/-- Result of `export_prospects`: the value the call returns (`None` on the
empty-store early return, otherwise the resolved `filepath`), and the file
it writes, if any (`filepath` plus the extension of the recognized
format; no branch runs for any other format value). -/
structure ExportResult where
  returned : Option String := none
  written : Option String := none
deriving Repr, DecidableEq

/-- `export_prospects(filename, format)`: early return on an empty store;
otherwise resolve the output path (auto-generating a timestamped filename
when none is given) and dispatch on `format`, with no fallback branch for
unrecognized values — the function still returns `filepath`. -/
def export_prospects (outputDirectory : String) (df : DataFrame)
    (filename : Option String) (format : String) (now : String) : ExportResult :=
  if df.rows.isEmpty then {}
  else
    let fname := filename.getD ("vehicle_buyer_prospects_" ++ now)
    let filepath := outputDirectory ++ "/" ++ fname
    if format == "csv" then { returned := some filepath, written := some (filepath ++ ".csv") }
    else if format == "excel" then { returned := some filepath, written := some (filepath ++ ".xlsx") }
    else if format == "json" then { returned := some filepath, written := some (filepath ++ ".json") }
    else { returned := some filepath, written := none }

/-- The dict `generate_report` returns.  Keys that a run may leave out of
the dict are `Option`; a count dict (`value_counts().to_dict()`) is
modelled as its counting function on values. -/
structure Report where
  total_prospects : Nat
  timestamp : String
  by_source : Option (String → Nat) := none
  by_type : Option (String → Nat) := none
  with_phone : Option Nat := none
  with_address : Option Nat := none

/-- `series.value_counts().to_dict()` as a counting function: how many rows
have this (non-missing) value in the given field. -/
def countValue (rows : List Row) (get : Row → Option String) (v : String) : Nat :=
  rows.countP (fun r => get r == some v)

/-- `generate_report()`: always `total_prospects` and `timestamp`; the
breakdown and completeness keys are only set when the store is non-empty,
and the two breakdowns additionally require their column to exist. -/
def generate_report (df : DataFrame) (now : String) : Report :=
  if df.rows.isEmpty then
    { total_prospects := df.rows.length, timestamp := now }
  else
    { total_prospects := df.rows.length
      timestamp := now
      by_source := if df.hasSource then some (countValue df.rows (fun r => r.source)) else none
      by_type := if df.hasType then some (countValue df.rows (fun r => r.prospect_type)) else none
      with_phone := some (if df.hasPhone then df.rows.countP (fun r => r.phone.isSome) else 0)
      with_address := some (if df.hasAddress then df.rows.countP (fun r => r.address.isSome) else 0) }

/-! ## Concrete data used by examples and witnesses -/

/-- The scorer example's record: phone and address present, website missing,
source `"MOCK_DMV"`. -/
def scorerExampleRow : Row :=
  { name := some "X", phone := some "555-0100", address := some "12 Main St",
    source := some "MOCK_DMV" }

/-- A one-record frame with all scoring columns present. -/
def scorerExampleDF : DataFrame :=
  { hasName := true, hasPhone := true, hasAddress := true, hasWebsite := true,
    hasSource := true, rows := [scorerExampleRow] }

/-- A one-record Yellow Pages batch. -/
def batchB1 : DataFrame :=
  { hasName := true, hasPhone := true, hasSource := true,
    rows := [{ name := some "Ace Motors", phone := some "555-0101", source := some "YellowPages" }] }

/-- A two-record DMV batch. -/
def batchB2 : DataFrame :=
  { hasName := true, hasSource := true,
    rows := [{ name := some "J. Doe", source := some "MOCK_DMV" },
             { name := some "M. Roe", source := some "MOCK_DMV" }] }

/-- A store containing a duplicate `(name, phone)` pair. -/
def dupStore : DataFrame :=
  { hasName := true, hasPhone := true,
    rows := [{ name := some "A", phone := some "1" },
             { name := some "A", phone := some "1", address := some "x" },
             { name := some "B" }] }

/-- The duplicated key of `dupStore`. -/
def dupKeyExample : Option String × Option String := (some "A", some "1")

/-- A non-empty store with neither a `name` nor a `phone` column, as a
store built from DMV batches alone would be. -/
def noNamePhoneStore : DataFrame :=
  { hasSource := true,
    rows := [{ source := some "MOCK_DMV" }, { source := some "MOCK_DMV" }] }

/-- A non-empty one-record store used for the export claims. -/
def exportExampleDF : DataFrame :=
  { hasName := true, rows := [{ name := some "A" }] }

/-! ## Theorems -/

/-- C10: the two merge entry points are behaviorally equivalent — on every
store state and every batch, `add_yellowpages_data` and `add_dmv_data`
return the same store (they differ only in the log message, which is not
observable in the store). -/
theorem merge_entry_points_agree (store df : DataFrame) :
    add_yellowpages_data store df = add_dmv_data store df := rfl

/-- C5: merging a non-empty batch B1 and then a non-empty batch B2 into a
fresh store yields exactly B1's records in order followed by B2's records
in order, of length `len B1 + len B2`; merging an empty batch is a no-op
for either entry point. -/
theorem merge_batches_spec :
    (∀ b1 b2 : DataFrame, b1.rows ≠ [] → b2.rows ≠ [] →
      (add_dmv_data (add_yellowpages_data emptyStore b1) b2).rows
          = b1.rows ++ b2.rows ∧
        (add_dmv_data (add_yellowpages_data emptyStore b1) b2).rows.length
          = b1.rows.length + b2.rows.length) ∧
    (∀ store b : DataFrame, b.rows = [] →
      add_yellowpages_data store b = store ∧ add_dmv_data store b = store) := by
  constructor
  · intro b1 b2 h1 h2
    have e1 : b1.rows.isEmpty = false := by
      cases hb : b1.rows with
      | nil => exact absurd hb h1
      | cons a t => rfl
    have e2 : b2.rows.isEmpty = false := by
      cases hb : b2.rows with
      | nil => exact absurd hb h2
      | cons a t => rfl
    constructor
    · simp [add_yellowpages_data, add_dmv_data, concat, emptyStore, e1, e2]
    · simp [add_yellowpages_data, add_dmv_data, concat, emptyStore, e1, e2]
  · intro store b hb
    constructor
    · simp [add_yellowpages_data, hb]
    · simp [add_dmv_data, hb]

/-- C5 witness: the merge theorem applied to the concrete batches. -/
theorem merge_batches_spec_witness :
    (batchB1.rows ≠ [] ∧ batchB2.rows ≠ []) ∧
    ((add_dmv_data (add_yellowpages_data emptyStore batchB1) batchB2).rows
        = batchB1.rows ++ batchB2.rows ∧
      (add_dmv_data (add_yellowpages_data emptyStore batchB1) batchB2).rows.length
        = batchB1.rows.length + batchB2.rows.length) :=
  ⟨⟨by decide, by decide⟩,
    merge_batches_spec.1 batchB1 batchB2 (by decide) (by decide)⟩

/-- C8: on an empty store, `export_prospects` returns no output path and
writes no file, whatever the requested format, filename, directory or
timestamp. -/
theorem export_prospects_empty_noop (dir : String) (df : DataFrame)
    (fname : Option String) (fmt now : String) (h : df.rows = []) :
    export_prospects dir df fname fmt now = { returned := none, written := none } := by
  simp [export_prospects, h]

/-- C8 witness: the empty-store export theorem at a concrete call. -/
theorem export_prospects_empty_noop_witness :
    (emptyStore.rows = []) ∧
      export_prospects "./output" emptyStore none "xml" "20250101_000000"
        = { returned := none, written := none } :=
  ⟨rfl, export_prospects_empty_noop "./output" emptyStore none "xml" "20250101_000000" rfl⟩

/-- C9: the classifier is idempotent — `categorize_prospects` applied twice
returns exactly the frame that one application returns. -/
theorem categorize_prospects_idem (df : DataFrame) :
    categorize_prospects (categorize_prospects df) = categorize_prospects df := by
  cases df with
  | mk hn hp ha hw hs ht hsc rows =>
    simp only [categorize_prospects, List.map_map]
    congr 1

/-- C2: `categorize_prospects` rewrites each row's `prospect_type` from its
name alone; per row the label follows the fixed rule order with
last-match-wins (a shop match beats a buyer match beats a dealer match,
anything else stays `"Unknown"`); the matching is on the lowercased name;
`"ABC Auto Body Shop"` matches both the dealer and the shop keyword sets
and ends as `"Body Shop"`; a missing or empty name stays `"Unknown"`. -/
theorem categorize_prospects_spec :
    (∀ df : DataFrame, (categorize_prospects df).rows
        = df.rows.map (fun r => { r with prospect_type := some (labelFor df.hasName r.name) })) ∧
    (∀ n : String, labelFor true (some n)
        = (if matchesAny shop_keywords (lowerStr n) then "Body Shop"
           else if matchesAny buyer_keywords (lowerStr n) then "Vehicle Buyer"
           else if matchesAny dealer_keywords (lowerStr n) then "Auto Dealer"
           else "Unknown")) ∧
    (matchesAny dealer_keywords (lowerStr "ABC Auto Body Shop") = true ∧
      matchesAny shop_keywords (lowerStr "ABC Auto Body Shop") = true ∧
      labelFor true (some "ABC Auto Body Shop") = "Body Shop") ∧
    (∀ b : Bool, labelFor b none = "Unknown" ∧ labelFor b (some "") = "Unknown") := by
  refine ⟨fun df => rfl, fun n => rfl, by decide, ?_⟩
  intro b
  cases b
  · exact ⟨rfl, rfl⟩
  · exact ⟨by decide, by decide⟩

/-- C4 (code bug): `export_prospects` on a non-empty store with any
unrecognized format runs none of the export branches — it writes nothing
and raises nothing, yet still returns the resolved filepath; the concrete
call with format `"xml"` shows it. -/
theorem export_prospects_unrecognized_format :
    (export_prospects "./output" exportExampleDF (some "prospects") "xml" "20250101_000000"
        = { returned := some "./output/prospects", written := none }) ∧
      (export_prospects "./output" exportExampleDF none "pdf" "20250101_000000"
        = { returned := some "./output/vehicle_buyer_prospects_20250101_000000",
            written := none }) := by
  constructor
  · decide
  · decide

/-- Membership is invariant under `insertDesc`. -/
theorem mem_insertDesc {r x : Row} {l : List Row} :
    r ∈ insertDesc x l ↔ r = x ∨ r ∈ l := by
  induction l with
  | nil => simp [insertDesc]
  | cons y t ih =>
    simp only [insertDesc]
    split
    · simp [List.mem_cons]
    · simp only [List.mem_cons, ih]
      tauto

/-- Membership is invariant under the score sort. -/
theorem mem_sortByScoreDesc {r : Row} {l : List Row} :
    r ∈ sortByScoreDesc l ↔ r ∈ l := by
  induction l with
  | nil => simp [sortByScoreDesc]
  | cons x t ih =>
    simp only [sortByScoreDesc, List.foldr_cons] at ih ⊢
    rw [mem_insertDesc, ih, List.mem_cons]

/-- The claim's reading of the score: four independent additive
contributions, one per rule. -/
def contribution (df : DataFrame) (r : Row) : Int :=
  (if df.hasPhone && r.phone.isSome then 10 else 0)
    + (if df.hasWebsite && r.website.isSome then 5 else 0)
    + (if df.hasAddress && r.address.isSome then 5 else 0)
    + (if df.hasSource && sourceHasDMV r.source then 20 else 0)

/-- C1: every record returned by `score_prospects` carries the sum of the
four independent contributions (+10 present phone, +5 present website, +5
present address, +20 source containing `"DMV"`), that sum never exceeds
40, and the example record (phone and address present, website missing,
source `"MOCK_DMV"`) scores exactly 35. -/
theorem score_prospects_spec (df : DataFrame) (r : Row)
    (h : r ∈ (score_prospects df).rows) :
    r.score = some (contribution df r) ∧ contribution df r ≤ 40 ∧
      (score_prospects scorerExampleDF).rows.map (fun x => x.score) = [some 35] := by
  have hmem : r ∈ df.rows.map (scoreRow df) := by
    simp only [score_prospects] at h
    exact mem_sortByScoreDesc.mp h
  obtain ⟨r0, hr0, hr⟩ := List.mem_map.mp hmem
  obtain ⟨nm, ph, ad, ws, sr, pt, sc⟩ := r0
  subst hr
  refine ⟨?_, ?_, by decide⟩
  · simp only [scoreRow, contribution]
    split_ifs <;> decide
  · simp only [scoreRow, contribution]
    split_ifs <;> decide

/-- C1 witness: the scoring theorem applied to the example frame's one
record. -/
theorem score_prospects_spec_witness :
    (({ scorerExampleRow with score := some 35 } : Row)
        ∈ (score_prospects scorerExampleDF).rows) ∧
    (({ scorerExampleRow with score := some 35 } : Row).score
        = some (contribution scorerExampleDF { scorerExampleRow with score := some 35 }) ∧
      contribution scorerExampleDF { scorerExampleRow with score := some 35 } ≤ 40 ∧
      (score_prospects scorerExampleDF).rows.map (fun x => x.score) = [some 35]) :=
  ⟨by decide, score_prospects_spec scorerExampleDF _ (by decide)⟩

/-- Rows a dedup pass emits form a sublist of the input (order among
survivors is the input order). -/
theorem dropDuplicatesFirst_sublist (l : List Row)
    (seen : List (Option String × Option String)) :
    List.Sublist (dropDuplicatesFirst l seen) l := by
  induction l generalizing seen with
  | nil => simp [dropDuplicatesFirst]
  | cons r t ih =>
    simp only [dropDuplicatesFirst]
    split
    · exact (ih seen).cons r
    · exact (ih _).cons₂ r

/-- A key already recorded in `seen` never appears among the emitted rows. -/
theorem dropDuplicatesFirst_countP_zero (l : List Row)
    (seen : List (Option String × Option String))
    (k : Option String × Option String) (hk : k ∈ seen) :
    (dropDuplicatesFirst l seen).countP (fun r => dedupKey r == k) = 0 := by
  revert hk
  induction l generalizing seen with
  | nil => intro hk; simp [dropDuplicatesFirst]
  | cons r t ih =>
    intro hk
    simp only [dropDuplicatesFirst]
    split
    · exact ih seen hk
    · rename_i hrnot
      have hne : dedupKey r ≠ k := fun he => hrnot (he ▸ hk)
      rw [List.countP_cons, ih (dedupKey r :: seen) (List.mem_cons_of_mem _ hk)]
      simp [hne]

/-- Each key of the input not yet in `seen` keeps exactly one row. -/
theorem dropDuplicatesFirst_countP_one (l : List Row)
    (seen : List (Option String × Option String))
    (k : Option String × Option String)
    (hks : k ∉ seen) (hkl : k ∈ l.map dedupKey) :
    (dropDuplicatesFirst l seen).countP (fun r => dedupKey r == k) = 1 := by
  revert hks hkl
  induction l generalizing seen with
  | nil => intro _ hkl; simp at hkl
  | cons r t ih =>
    intro hks hkl
    simp only [dropDuplicatesFirst]
    split
    · rename_i hrseen
      have hne : dedupKey r ≠ k := fun he => hks (he ▸ hrseen)
      have hkt : k ∈ t.map dedupKey := by
        simp only [List.map_cons, List.mem_cons] at hkl
        rcases hkl with h | h
        · exact absurd h.symm hne
        · exact h
      exact ih seen hks hkt
    · rename_i hrnot
      rw [List.countP_cons]
      by_cases hkr : dedupKey r = k
      · rw [dropDuplicatesFirst_countP_zero t (dedupKey r :: seen) k
          (List.mem_cons.mpr (Or.inl hkr.symm))]
        simp [hkr]
      · have hkt : k ∈ t.map dedupKey := by
          simp only [List.map_cons, List.mem_cons] at hkl
          rcases hkl with h | h
          · exact absurd h.symm hkr
          · exact h
        have hnotin : k ∉ dedupKey r :: seen := by
          simp only [List.mem_cons]
          rintro (h | h)
          · exact hkr h.symm
          · exact hks h
        rw [ih (dedupKey r :: seen) hnotin hkt]
        simp [hkr]

/-- For a key not yet in `seen`, the first emitted row of that key is the
first input row of that key. -/
theorem dropDuplicatesFirst_find (l : List Row)
    (seen : List (Option String × Option String))
    (k : Option String × Option String) (hks : k ∉ seen) :
    (dropDuplicatesFirst l seen).find? (fun r => dedupKey r == k)
      = l.find? (fun r => dedupKey r == k) := by
  revert hks
  induction l generalizing seen with
  | nil => intro _; rfl
  | cons r t ih =>
    intro hks
    simp only [dropDuplicatesFirst]
    split
    · rename_i hrseen
      have hne : dedupKey r ≠ k := fun he => hks (he ▸ hrseen)
      have hpr : (dedupKey r == k) = false := by simp [beq_iff_eq, hne]
      rw [ih seen hks]
      simp [List.find?, hpr]
    · rename_i hrnot
      by_cases hkr : dedupKey r = k
      · have hpr : (dedupKey r == k) = true := by simp [beq_iff_eq, hkr]
        simp [List.find?, hpr]
      · have hpr : (dedupKey r == k) = false := by simp [beq_iff_eq, hkr]
        have hnotin : k ∉ dedupKey r :: seen := by
          simp only [List.mem_cons]
          rintro (h | h)
          · exact hkr h.symm
          · exact hks h
        simp only [List.find?, hpr]
        exact ih (dedupKey r :: seen) hnotin

/-- C6 counterexample: on a concrete non-empty store without `name` and
`phone` columns (a DMV-only store), dedup-enabled `filter_prospects` does
not return records at all — it fails with the `KeyError` naming the
missing subset columns, refuting the claim's "for every store". -/
theorem filter_prospects_missing_columns :
    filter_prospects noNamePhoneStore (some ["min_records"])
        = Except.error ["name", "phone"] ∧
      ∀ out : DataFrame,
        filter_prospects noNamePhoneStore (some ["min_records"]) ≠ Except.ok out := by
  refine ⟨rfl, fun out h => ?_⟩
  have he : (Except.error ["name", "phone"] : Except (List String) DataFrame)
      = Except.ok out := h
  exact Except.noConfusion he

/-- C6 (amended): with no criteria, `filter_prospects` returns the store
unchanged; with deduplication enabled (a criteria dict holding
`'min_records'`) it succeeds on every store whose `name` and `phone`
columns are both present, returning a sublist of the store (original
order preserved among survivors), no longer than the store, with exactly
one row per distinct `(name, phone)` pair — the first-encountered one;
an empty store is returned unchanged whatever its columns; a non-empty
store missing either column makes dedup fail with the `KeyError` naming
the missing columns. -/
theorem filter_prospects_spec :
    (∀ store : DataFrame, filter_prospects store none = Except.ok store) ∧
    (∀ (store : DataFrame) (keys : List String), "min_records" ∈ keys →
      store.hasName = true → store.hasPhone = true →
      ∃ out : DataFrame,
        filter_prospects store (some keys) = Except.ok out ∧
        List.Sublist out.rows store.rows ∧
        out.rows.length ≤ store.rows.length ∧
        ∀ k, k ∈ store.rows.map dedupKey →
          (out.rows.countP (fun r => dedupKey r == k) = 1 ∧
            out.rows.find? (fun r => dedupKey r == k)
              = store.rows.find? (fun r => dedupKey r == k))) ∧
    (∀ (store : DataFrame) (keys : List String), "min_records" ∈ keys →
      store.rows = [] → filter_prospects store (some keys) = Except.ok store) ∧
    (∀ (store : DataFrame) (keys : List String), "min_records" ∈ keys →
      store.rows ≠ [] → (store.hasName = false ∨ store.hasPhone = false) →
      filter_prospects store (some keys) = Except.error (missingDedupColumns store) ∧
        missingDedupColumns store ≠ []) := by
  refine ⟨fun store => rfl, ?_, ?_, ?_⟩
  · intro store keys hkeys hn hp
    have hfil : filter_prospects store (some keys) = drop_duplicates_name_phone store := by
      simp [filter_prospects, hkeys]
    by_cases hre : store.rows.isEmpty = true
    · have hrows : store.rows = [] := by
        cases hb : store.rows with
        | nil => rfl
        | cons a t => rw [hb] at hre; exact absurd hre (by simp)
      refine ⟨store, ?_, List.Sublist.refl _, le_refl _, ?_⟩
      · rw [hfil]
        simp [drop_duplicates_name_phone, hre]
      · intro k hkmem
        rw [hrows] at hkmem
        simp at hkmem
    · have he : store.rows.isEmpty = false := by
        cases h2 : store.rows.isEmpty
        · rfl
        · exact absurd h2 hre
      have hmiss : missingDedupColumns store = [] := by
        simp [missingDedupColumns, hn, hp]
      refine ⟨{ store with rows := dropDuplicatesFirst store.rows [] }, ?_,
        dropDuplicatesFirst_sublist store.rows [],
        (dropDuplicatesFirst_sublist store.rows []).length_le, ?_⟩
      · rw [hfil]
        simp [drop_duplicates_name_phone, he, hmiss]
      · intro k hkmem
        exact ⟨dropDuplicatesFirst_countP_one store.rows [] k (by simp) hkmem,
          dropDuplicatesFirst_find store.rows [] k (by simp)⟩
  · intro store keys hkeys hrows
    have hfil : filter_prospects store (some keys) = drop_duplicates_name_phone store := by
      simp [filter_prospects, hkeys]
    rw [hfil]
    simp [drop_duplicates_name_phone, hrows]
  · intro store keys hkeys hne hor
    have hfil : filter_prospects store (some keys) = drop_duplicates_name_phone store := by
      simp [filter_prospects, hkeys]
    have he : store.rows.isEmpty = false := by
      cases hb : store.rows with
      | nil => exact absurd hb hne
      | cons a t => rfl
    have hmiss : missingDedupColumns store ≠ [] := by
      rcases hor with h | h <;> simp [missingDedupColumns, h]
    rw [hfil]
    refine ⟨?_, hmiss⟩
    simp [drop_duplicates_name_phone, he, hmiss]

/-- C6 witness: the dedup clause of the filter theorem applied to a
concrete store with a duplicated `(name, phone)` pair. -/
theorem filter_prospects_spec_witness :
    ("min_records" ∈ (["min_records"] : List String) ∧
      dupStore.hasName = true ∧ dupStore.hasPhone = true ∧
      dupKeyExample ∈ dupStore.rows.map dedupKey) ∧
    (∃ out : DataFrame,
      filter_prospects dupStore (some ["min_records"]) = Except.ok out ∧
      out.rows.countP (fun r => dedupKey r == dupKeyExample) = 1 ∧
      out.rows.find? (fun r => dedupKey r == dupKeyExample)
        = dupStore.rows.find? (fun r => dedupKey r == dupKeyExample)) := by
  refine ⟨⟨by decide, rfl, rfl, by decide⟩, ?_⟩
  obtain ⟨out, hok, hsub, hlen, hk⟩ :=
    filter_prospects_spec.2.1 dupStore ["min_records"] (by decide) rfl rfl
  exact ⟨out, hok, (hk dupKeyExample (by decide)).1, (hk dupKeyExample (by decide)).2⟩

/-- The report example's store: three records, two sourced
`"YellowPages"`, one `"MOCK_DMV"`, two with a phone. -/
def reportExampleDF : DataFrame :=
  { hasName := true, hasPhone := true, hasSource := true,
    rows := [{ name := some "A", phone := some "1", source := some "YellowPages" },
             { name := some "B", source := some "YellowPages" },
             { name := some "C", phone := some "3", source := some "MOCK_DMV" }] }

/-- C7 (amended): for every non-empty store the report carries the record
count, the per-value source and type counts (each omitted exactly when its
column is absent), and the phone/address completeness counts (0 when the
column is absent); for an empty store the report carries only the count
and the timestamp, all other keys omitted; the three-record example yields
total 3, YellowPages 2, MOCK_DMV 1 and with_phone 2. -/
theorem generate_report_spec :
    (∀ (df : DataFrame) (now : String), df.rows ≠ [] →
      ((generate_report df now).total_prospects = df.rows.length ∧
        (df.hasSource = true →
          (generate_report df now).by_source
            = some (countValue df.rows (fun r => r.source))) ∧
        (df.hasSource = false → (generate_report df now).by_source = none) ∧
        (df.hasType = true →
          (generate_report df now).by_type
            = some (countValue df.rows (fun r => r.prospect_type))) ∧
        (df.hasType = false → (generate_report df now).by_type = none) ∧
        (generate_report df now).with_phone
          = some (if df.hasPhone then df.rows.countP (fun r => r.phone.isSome) else 0) ∧
        (generate_report df now).with_address
          = some (if df.hasAddress then df.rows.countP (fun r => r.address.isSome) else 0))) ∧
    (∀ (df : DataFrame) (now : String), df.rows = [] →
      generate_report df now = { total_prospects := 0, timestamp := now }) ∧
    ((generate_report reportExampleDF "t").total_prospects = 3 ∧
      (∃ f, (generate_report reportExampleDF "t").by_source = some f ∧
        f "YellowPages" = 2 ∧ f "MOCK_DMV" = 1) ∧
      (generate_report reportExampleDF "t").with_phone = some 2) := by
  refine ⟨?_, ?_, ?_⟩
  · intro df now h
    have e : df.rows.isEmpty = false := by
      cases hb : df.rows with
      | nil => exact absurd hb h
      | cons a t => rfl
    refine ⟨by simp [generate_report, e], ?_, ?_, ?_, ?_,
      by simp [generate_report, e], by simp [generate_report, e]⟩
    · intro hs; simp [generate_report, e, hs]
    · intro hs; simp [generate_report, e, hs]
    · intro hs; simp [generate_report, e, hs]
    · intro hs; simp [generate_report, e, hs]
  · intro df now h
    simp [generate_report, h]
  · exact ⟨by decide, ⟨countValue reportExampleDF.rows (fun r => r.source),
      rfl, by decide, by decide⟩, by decide⟩

/-- C7 witness: the non-empty clause of the report theorem applied to the
example store. -/
theorem generate_report_spec_witness :
    (reportExampleDF.rows ≠ []) ∧
    ((generate_report reportExampleDF "t").total_prospects
        = reportExampleDF.rows.length ∧
      (reportExampleDF.hasSource = true →
        (generate_report reportExampleDF "t").by_source
          = some (countValue reportExampleDF.rows (fun r => r.source))) ∧
      (reportExampleDF.hasSource = false →
        (generate_report reportExampleDF "t").by_source = none) ∧
      (reportExampleDF.hasType = true →
        (generate_report reportExampleDF "t").by_type
          = some (countValue reportExampleDF.rows (fun r => r.prospect_type))) ∧
      (reportExampleDF.hasType = false →
        (generate_report reportExampleDF "t").by_type = none) ∧
      (generate_report reportExampleDF "t").with_phone
        = some (if reportExampleDF.hasPhone
            then reportExampleDF.rows.countP (fun r => r.phone.isSome) else 0) ∧
      (generate_report reportExampleDF "t").with_address
        = some (if reportExampleDF.hasAddress
            then reportExampleDF.rows.countP (fun r => r.address.isSome) else 0)) :=
  ⟨by decide, generate_report_spec.1 reportExampleDF "t" (by decide)⟩

/-- C7 counterexample: on the empty store the code omits the `with_phone`
key entirely, where the claim as stated requires the value 0 (the `phone`
column is absent there). -/
theorem generate_report_empty_omits_stats :
    (generate_report emptyStore "t").with_phone = none ∧
      ¬((generate_report emptyStore "t").with_phone = some 0) := by
  exact ⟨rfl, by decide⟩

end ProspectFinder
